import Mathlib

/-!
Shallow embedding of `src/libos/src/fs/channel.rs` (Occlum's unidirectional
SPSC channel used to implement pipes and unix domain sockets).

The channel couples a fixed-capacity ring buffer with a shared `State`
(two monotonic shutdown flags) and a per-endpoint non-blocking flag.
We model the channel's sequential semantics: a `ChannelState` collects the
ring-buffer contents (front = oldest item, as in the `ringbuf` crate used by
the source), the two shutdown flags, and the two non-blocking flags.

Every push/pop operation in the source runs the body of the `waiter_loop!`
macro repeatedly, parking the thread between attempts.  One attempt of the
loop body is a pure function of the channel state; we embed that attempt.
Its outcome is either a return (`ok`/`err`) or a fall-through (the thread
would park and retry), which we record as `wouldBlock`.  Operations also
return the list of notifier broadcasts / waiter-queue wakeups they perform,
in order, so that theorems can speak about event delivery.
-/

/-- Event set of the I/O notifier (`IoEvents` bitflags in the source); we
only model the four bits `channel.rs` uses. -/
structure IoEvents where
  isIn : Bool
  isOut : Bool
  isHup : Bool
  isRdhup : Bool
deriving DecidableEq, Repr

def IoEvents.empty : IoEvents := ⟨false, false, false, false⟩

def IoEvents.IN : IoEvents := ⟨true, false, false, false⟩

def IoEvents.OUT : IoEvents := ⟨false, true, false, false⟩

def IoEvents.HUP : IoEvents := ⟨false, false, true, false⟩

def IoEvents.RDHUP : IoEvents := ⟨false, false, false, true⟩

/-- Union of two event sets (the `|=` operator of the bitflags). -/
def IoEvents.union (a b : IoEvents) : IoEvents :=
  ⟨a.isIn || b.isIn, a.isOut || b.isOut, a.isHup || b.isHup, a.isRdhup || b.isRdhup⟩

/-- Side effects an operation performs on the event subsystem:
`broadcast ev` is `self.notifier.broadcast(&ev)`, `wakeAll` is
`self.observer.waiter_queue().dequeue_and_wake_all()`. -/
inductive Effect
  | broadcast (ev : IoEvents)
  | wakeAll
deriving DecidableEq, Repr

/-- Error codes the channel surfaces (`return_errno!` in the source). -/
inductive Errno
  | EPIPE
  | EAGAIN
deriving DecidableEq, Repr

/-- Outcome of one attempt of a `waiter_loop!` body: an early return with a
value, an early return with an error, or a fall-through to the parking
step (the attempt neither succeeded nor failed terminally). -/
inductive AttemptResult (α : Type)
  | ok (a : α)
  | err (e : Errno)
  | wouldBlock
deriving DecidableEq, Repr

/-- The whole sequential state of one channel: ring-buffer contents
(`buffer`, front = oldest; its length never exceeds `capacity` in any
reachable state), the shared shutdown `State`, and each endpoint's
`is_nonblocking` flag. -/
structure ChannelState (I : Type) where
  capacity : Nat
  buffer : List I
  is_producer_shutdown : Bool
  is_consumer_shutdown : Bool
  producer_nonblocking : Bool
  consumer_nonblocking : Bool
deriving DecidableEq, Repr

/-- `RingBuffer::is_full`: the buffer has no free slot.  Reachable states
keep `buffer.length ≤ capacity`, so this coincides with
`buffer.length == capacity` there. -/
def rb_is_full {I : Type} (s : ChannelState I) : Bool :=
  s.capacity ≤ s.buffer.length

/-- `RingBuffer::is_empty`. -/
def rb_is_empty {I : Type} (s : ChannelState I) : Bool :=
  s.buffer.isEmpty

/-- `Channel::new(capacity)`: empty buffer, both shutdown flags false
(`State::new`), both endpoints blocking (`AtomicBool::new(false)`). -/
def Channel.new (I : Type) (capacity : Nat) : ChannelState I :=
  { capacity := capacity
    buffer := []
    is_producer_shutdown := false
    is_consumer_shutdown := false
    producer_nonblocking := false
    consumer_nonblocking := false }

/-- One attempt of `Producer::push`'s loop body: fail with `EPIPE` if either
endpoint is shut down; otherwise try `rb_producer.push(item)` (succeeds iff
the buffer is not full, appending at the back) and broadcast `IN` on
success; otherwise `EAGAIN` when non-blocking; otherwise fall through to
park. -/
def Producer.push {I : Type} (s : ChannelState I) (item : I) :
    AttemptResult Unit × ChannelState I × List Effect :=
  if s.is_producer_shutdown || s.is_consumer_shutdown then
    (.err .EPIPE, s, [])
  else if s.buffer.length < s.capacity then
    (.ok (), { s with buffer := s.buffer ++ [item] }, [.broadcast IoEvents.IN])
  else if s.producer_nonblocking then
    (.err .EAGAIN, s, [])
  else
    (.wouldBlock, s, [])

/-- One attempt of `Producer::push_slice`'s loop body: `EPIPE` on shutdown;
otherwise `rb_producer.push_slice(items)` writes as many leading items as
fit and, if that count is positive, broadcasts `IN` and returns the count;
otherwise `EAGAIN` when non-blocking; otherwise fall through to park. -/
def Producer.push_slice {I : Type} (s : ChannelState I) (items : List I) :
    AttemptResult Nat × ChannelState I × List Effect :=
  if s.is_producer_shutdown || s.is_consumer_shutdown then
    (.err .EPIPE, s, [])
  else
    let count := min items.length (s.capacity - s.buffer.length)
    if 0 < count then
      (.ok count, { s with buffer := s.buffer ++ items.take count },
        [.broadcast IoEvents.IN])
    else if s.producer_nonblocking then
      (.err .EAGAIN, s, [])
    else
      (.wouldBlock, s, [])

/-- `Producer::poll`: `OUT` iff the buffer is not full, `HUP` iff the
producer itself is shut down, `RDHUP` iff the consumer peer is shut down.
The source only reads state under the lock, so poll is a pure function. -/
def Producer.poll {I : Type} (s : ChannelState I) : IoEvents :=
  let events := IoEvents.empty
  let events := if !(rb_is_full s) then events.union IoEvents.OUT else events
  let events := if s.is_producer_shutdown then events.union IoEvents.HUP else events
  let events := if s.is_consumer_shutdown then events.union IoEvents.RDHUP else events
  events

/-- `Producer::shutdown`: set the producer shutdown flag (under the buffer
lock), then broadcast `HUP` and wake all threads parked on this endpoint. -/
def Producer.shutdown {I : Type} (s : ChannelState I) :
    ChannelState I × List Effect :=
  ({ s with is_producer_shutdown := true },
    [.broadcast IoEvents.HUP, .wakeAll])

/-- `EndPoint::set_nonblocking` on the producer endpoint: store the flag,
and when turning non-blocking on, wake every thread parked on pushing. -/
def Producer.set_nonblocking {I : Type} (s : ChannelState I) (nonblocking : Bool) :
    ChannelState I × List Effect :=
  ({ s with producer_nonblocking := nonblocking },
    if nonblocking then [.wakeAll] else [])

/-- One attempt of `Consumer::pop`'s loop body: `EPIPE` if this endpoint
itself is shut down; otherwise take the front item if any, broadcasting
`OUT`; on an empty buffer return `Ok(None)` if the producer peer is shut
down; otherwise `EAGAIN` when non-blocking; otherwise fall through. -/
def Consumer.pop {I : Type} (s : ChannelState I) :
    AttemptResult (Option I) × ChannelState I × List Effect :=
  if s.is_consumer_shutdown then
    (.err .EPIPE, s, [])
  else
    match s.buffer with
    | item :: rest =>
      (.ok (some item), { s with buffer := rest }, [.broadcast IoEvents.OUT])
    | [] =>
      if s.is_producer_shutdown then
        (.ok none, s, [])
      else if s.consumer_nonblocking then
        (.err .EAGAIN, s, [])
      else
        (.wouldBlock, s, [])

/-- One attempt of `Consumer::pop_slice`'s loop body with a caller slice of
length `n`: `EPIPE` on self shutdown; otherwise read up to `n` leading
items, and if the count is positive broadcast `OUT` and return the count
together with the items read; on zero count return `Ok 0` if the producer
is shut down, `EAGAIN` when non-blocking, else fall through. -/
def Consumer.pop_slice {I : Type} (s : ChannelState I) (n : Nat) :
    AttemptResult (Nat × List I) × ChannelState I × List Effect :=
  if s.is_consumer_shutdown then
    (.err .EPIPE, s, [])
  else
    let count := min n s.buffer.length
    if 0 < count then
      (.ok (count, s.buffer.take count), { s with buffer := s.buffer.drop count },
        [.broadcast IoEvents.OUT])
    else if s.is_producer_shutdown then
      (.ok (0, []), s, [])
    else if s.consumer_nonblocking then
      (.err .EAGAIN, s, [])
    else
      (.wouldBlock, s, [])

/-- `Consumer::poll`: `IN` iff the buffer is not empty, `RDHUP` iff the
consumer itself is shut down, `HUP` iff the producer peer is shut down. -/
def Consumer.poll {I : Type} (s : ChannelState I) : IoEvents :=
  let events := IoEvents.empty
  let events := if !(rb_is_empty s) then events.union IoEvents.IN else events
  let events := if s.is_consumer_shutdown then events.union IoEvents.RDHUP else events
  let events := if s.is_producer_shutdown then events.union IoEvents.HUP else events
  events

/-- `Consumer::shutdown`: set the consumer shutdown flag (under the buffer
lock), then broadcast `RDHUP` and wake all threads parked on popping. -/
def Consumer.shutdown {I : Type} (s : ChannelState I) :
    ChannelState I × List Effect :=
  ({ s with is_consumer_shutdown := true },
    [.broadcast IoEvents.RDHUP, .wakeAll])

/-- `EndPoint::set_nonblocking` on the consumer endpoint. -/
def Consumer.set_nonblocking {I : Type} (s : ChannelState I) (nonblocking : Bool) :
    ChannelState I × List Effect :=
  ({ s with consumer_nonblocking := nonblocking },
    if nonblocking then [.wakeAll] else [])

/-- `Channel::push` is a thin delegation to `Producer::push`. -/
def Channel.push {I : Type} (s : ChannelState I) (item : I) :
    AttemptResult Unit × ChannelState I × List Effect :=
  Producer.push s item

/-- `Channel::pop` is a thin delegation to `Consumer::pop`. -/
def Channel.pop {I : Type} (s : ChannelState I) :
    AttemptResult (Option I) × ChannelState I × List Effect :=
  Consumer.pop s

/-- C1: if either the producer or the consumer endpoint has been shut down,
`Producer::push` (and the delegating `Channel::push`) fails with `EPIPE`
for every item and every buffer occupancy, leaves the buffer (indeed the
whole state) unchanged, and broadcasts nothing. -/
theorem C1_push_epipe_after_shutdown {I : Type} (s : ChannelState I) (item : I)
    (h : s.is_producer_shutdown = true ∨ s.is_consumer_shutdown = true) :
    Producer.push s item = (.err .EPIPE, s, []) ∧
    Channel.push s item = (.err .EPIPE, s, []) := by
  have hcond : (s.is_producer_shutdown || s.is_consumer_shutdown) = true := by
    rcases h with h | h <;> simp [h]
  constructor <;> simp [Producer.push, Channel.push, hcond]

/-- C1 witness: a concrete channel with one free slot whose consumer is
shut down rejects a push with `EPIPE` and adds nothing. -/
theorem C1_push_epipe_after_shutdown_witness :
    Producer.push
        { capacity := 2, buffer := [7], is_producer_shutdown := false,
          is_consumer_shutdown := true, producer_nonblocking := false,
          consumer_nonblocking := false } 42
      = (.err .EPIPE,
          { capacity := 2, buffer := [7], is_producer_shutdown := false,
            is_consumer_shutdown := true, producer_nonblocking := false,
            consumer_nonblocking := false }, []) ∧
    Channel.push
        { capacity := 2, buffer := [7], is_producer_shutdown := false,
          is_consumer_shutdown := true, producer_nonblocking := false,
          consumer_nonblocking := false } 42
      = (.err .EPIPE,
          { capacity := 2, buffer := [7], is_producer_shutdown := false,
            is_consumer_shutdown := true, producer_nonblocking := false,
            consumer_nonblocking := false }, []) :=
  C1_push_epipe_after_shutdown _ 42 (Or.inr rfl)

/-- Perform one `Consumer::pop` attempt per item of a list of `n` calls,
threading the state; returns the list of results and the final state. -/
def popSeq {I : Type} : ChannelState I → Nat → List (AttemptResult (Option I)) × ChannelState I
  | s, 0 => ([], s)
  | s, n + 1 =>
    let r := Consumer.pop s
    let rest := popSeq r.2.1 n
    (r.1 :: rest.1, rest.2)

/-- Perform one `Producer::push` attempt per item of the list, threading the
state; returns the list of results and the final state. -/
def pushSeq {I : Type} : ChannelState I → List I → List (AttemptResult Unit) × ChannelState I
  | s, [] => ([], s)
  | s, item :: items =>
    let r := Producer.push s item
    let rest := pushSeq r.2.1 items
    (r.1 :: rest.1, rest.2)

/-- Helper: as long as the consumer is open, popping once per buffered item
returns each buffered item in order and ends with an empty buffer, leaving
capacity and every flag untouched. -/
theorem popSeq_drains {I : Type} (l : List I) :
    ∀ s : ChannelState I, s.is_consumer_shutdown = false → s.buffer = l →
      popSeq s l.length
        = (l.map (fun item => AttemptResult.ok (some item)),
            { s with buffer := [] }) := by
  induction l with
  | nil => intro s hc hb; simp [popSeq, ← hb]
  | cons x rest ih =>
    intro s hc hb
    have hpop : Consumer.pop s
        = (.ok (some x), { s with buffer := rest }, [.broadcast IoEvents.OUT]) := by
      simp [Consumer.pop, hc, hb]
    simp only [List.length_cons, popSeq, hpop, List.map_cons]
    rw [ih { s with buffer := rest } hc rfl]

/-- C2: with the producer shut down and the consumer open, the next
`buffer.length` pops each return one of the still-buffered items, in
order, as successes; the buffer is then empty, and every further pop
returns `Ok(None)` immediately (an early success return, never an error
and never a fall-through to the parking step). -/
theorem C2_pop_after_producer_shutdown {I : Type} (s : ChannelState I)
    (hp : s.is_producer_shutdown = true) (hc : s.is_consumer_shutdown = false) :
    (popSeq s s.buffer.length).1
        = s.buffer.map (fun item => AttemptResult.ok (some item)) ∧
    (popSeq s s.buffer.length).2.buffer = [] ∧
    Consumer.pop (popSeq s s.buffer.length).2
        = (.ok none, (popSeq s s.buffer.length).2, []) := by
  have h := popSeq_drains s.buffer s hc rfl
  refine ⟨by rw [h], by rw [h], ?_⟩
  rw [h]
  simp [Consumer.pop, hc, hp]

/-- C2 witness: producer shut down with `[3, 4]` buffered; the two pops
return `3` then `4`, and the third pop returns `Ok(None)`. -/
theorem C2_pop_after_producer_shutdown_witness :
    (popSeq
        { capacity := 4, buffer := [3, 4], is_producer_shutdown := true,
          is_consumer_shutdown := false, producer_nonblocking := false,
          consumer_nonblocking := false } 2).1
      = [.ok (some 3), .ok (some 4)] ∧
    Consumer.pop (popSeq
        { capacity := 4, buffer := [3, 4], is_producer_shutdown := true,
          is_consumer_shutdown := false, producer_nonblocking := false,
          consumer_nonblocking := false } 2).2
      = (.ok none, (popSeq
          { capacity := 4, buffer := [3, 4], is_producer_shutdown := true,
            is_consumer_shutdown := false, producer_nonblocking := false,
            consumer_nonblocking := false } 2).2, []) := by
  have h := C2_pop_after_producer_shutdown (I := Nat)
    { capacity := 4, buffer := [3, 4], is_producer_shutdown := true,
      is_consumer_shutdown := false, producer_nonblocking := false,
      consumer_nonblocking := false } rfl rfl
  exact ⟨h.1, h.2.2⟩

/-- Helper: with both shutdown flags clear and enough free capacity, pushing
a list of items succeeds item by item and appends them at the back, leaving
capacity and every flag untouched. -/
theorem pushSeq_appends {I : Type} (items : List I) :
    ∀ s : ChannelState I, s.is_producer_shutdown = false →
      s.is_consumer_shutdown = false →
      s.buffer.length + items.length ≤ s.capacity →
      pushSeq s items
        = (items.map (fun _ => AttemptResult.ok ()),
            { s with buffer := s.buffer ++ items }) := by
  induction items with
  | nil => intro s hp hc hcap; simp [pushSeq]
  | cons x rest ih =>
    intro s hp hc hcap
    have hlt : s.buffer.length < s.capacity := by
      simp only [List.length_cons] at hcap; omega
    have hpush : Producer.push s x
        = (.ok (), { s with buffer := s.buffer ++ [x] }, [.broadcast IoEvents.IN]) := by
      simp [Producer.push, hp, hc, hlt]
    have hcap2 : ({ s with buffer := s.buffer ++ [x] } :
        ChannelState I).buffer.length + rest.length
        ≤ ({ s with buffer := s.buffer ++ [x] } : ChannelState I).capacity := by
      simp only [List.length_append, List.length_cons] at hcap ⊢
      simpa using by omega
    simp only [pushSeq, hpush, List.map_cons]
    rw [ih { s with buffer := s.buffer ++ [x] } hp hc hcap2]
    simp

/-- C5: whenever the consumer endpoint itself has been shut down — items
buffered or not — `Consumer::pop` fails with `EPIPE`, leaving the state
unchanged and broadcasting nothing: the self-shutdown check precedes the
buffered-data check. -/
theorem C5_pop_epipe_on_self_shutdown {I : Type} (s : ChannelState I)
    (h : s.is_consumer_shutdown = true) :
    Consumer.pop s = (.err .EPIPE, s, []) := by
  simp [Consumer.pop, h]

/-- C5 witness: the consumer-shut-down channel still holding `[1, 2]`
rejects a pop with `EPIPE` instead of delivering the buffered `1`. -/
theorem C5_pop_epipe_on_self_shutdown_witness :
    Consumer.pop
        { capacity := 4, buffer := [1, 2], is_producer_shutdown := false,
          is_consumer_shutdown := true, producer_nonblocking := false,
          consumer_nonblocking := false }
      = (.err .EPIPE,
          { capacity := 4, buffer := [1, 2], is_producer_shutdown := false,
            is_consumer_shutdown := true, producer_nonblocking := false,
            consumer_nonblocking := false }, []) :=
  C5_pop_epipe_on_self_shutdown _ rfl

/-- The start state of the C3 scenario: a freshly created channel of
capacity `C` whose producer endpoint was switched to non-blocking mode. -/
def nonblockingStart (C : Nat) : ChannelState Nat :=
  (Producer.set_nonblocking (Channel.new Nat C) true).1

/-- C3: for every capacity `C ≥ 1` and every batch of `C` items, starting
from an empty channel whose producer is non-blocking: all `C` pushes
succeed, the `(C+1)`-th push fails with `EAGAIN` (leaving the state
unchanged), and after a single pop removes the oldest item the retried
push succeeds. -/
theorem C3_capacity_eagain_then_retry (C : Nat) (hC : 1 ≤ C)
    (items : List Nat) (hlen : items.length = C) (extra : Nat) :
    (pushSeq (nonblockingStart C) items).1
        = items.map (fun _ => AttemptResult.ok ()) ∧
    Producer.push (pushSeq (nonblockingStart C) items).2 extra
        = (.err .EAGAIN, (pushSeq (nonblockingStart C) items).2, []) ∧
    (Producer.push (Consumer.pop (pushSeq (nonblockingStart C) items).2).2.1 extra).1
        = .ok () := by
  have hfill := pushSeq_appends items (nonblockingStart C) rfl rfl
    (by simp [nonblockingStart, Channel.new, Producer.set_nonblocking, hlen])
  have hfull : (pushSeq (nonblockingStart C) items).2
      = { capacity := C, buffer := items, is_producer_shutdown := false,
          is_consumer_shutdown := false, producer_nonblocking := true,
          consumer_nonblocking := false } := by
    rw [hfill]; simp [nonblockingStart, Channel.new, Producer.set_nonblocking]
  refine ⟨by rw [hfill], ?_, ?_⟩
  · rw [hfull]
    simp [Producer.push, hlen]
  · rw [hfull]
    cases items with
    | nil => simp at hlen; omega
    | cons x rest =>
      have hrest : rest.length + 1 = C := by simpa using hlen
      simp [Consumer.pop, Producer.push, ← hrest]

/-- C3 witness: capacity 2, pushing `[5, 6]` succeeds, pushing `7` returns
`EAGAIN`, and after one pop the push of `7` succeeds. -/
theorem C3_capacity_eagain_then_retry_witness :
    (pushSeq (nonblockingStart 2) [5, 6]).1 = [.ok (), .ok ()] ∧
    (Producer.push (pushSeq (nonblockingStart 2) [5, 6]).2 7).1 = .err .EAGAIN ∧
    (Producer.push (Consumer.pop (pushSeq (nonblockingStart 2) [5, 6]).2).2.1 7).1
      = .ok () := by
  have h := C3_capacity_eagain_then_retry 2 (by decide) [5, 6] rfl 7
  exact ⟨h.1, by rw [h.2.1], h.2.2⟩

/-- C4: FIFO order.  Pushing the sequence `items` into a fresh channel of
sufficient capacity with no interleaved pops succeeds for every item, and
the subsequent pops return exactly those items, in the same order. -/
theorem C4_fifo {I : Type} (C : Nat) (items : List I) (hlen : items.length ≤ C) :
    (pushSeq (Channel.new I C) items).1
        = items.map (fun _ => AttemptResult.ok ()) ∧
    (popSeq (pushSeq (Channel.new I C) items).2 items.length).1
        = items.map (fun item => AttemptResult.ok (some item)) := by
  have hfill := pushSeq_appends items (Channel.new I C) rfl rfl
    (by simpa [Channel.new] using hlen)
  have hstate : (pushSeq (Channel.new I C) items).2
      = { capacity := C, buffer := items, is_producer_shutdown := false,
          is_consumer_shutdown := false, producer_nonblocking := false,
          consumer_nonblocking := false } := by
    rw [hfill]; simp [Channel.new]
  refine ⟨by rw [hfill], ?_⟩
  have hdrain := popSeq_drains items (pushSeq (Channel.new I C) items).2
    (by rw [hstate]) (by rw [hstate])
  rw [hdrain]

/-- C4 witness: pushing `[10, 20, 30]` then popping three times yields
`10, 20, 30` in order. -/
theorem C4_fifo_witness :
    (pushSeq (Channel.new Nat 3) [10, 20, 30]).1 = [.ok (), .ok (), .ok ()] ∧
    (popSeq (pushSeq (Channel.new Nat 3) [10, 20, 30]).2 3).1
      = [.ok (some 10), .ok (some 20), .ok (some 30)] :=
  C4_fifo 3 [10, 20, 30] (by decide)

/-- C6: `Producer::poll` returns exactly the event set with `OUT` iff the
buffer is not full, `HUP` iff the producer endpoint is shut down, and
`RDHUP` iff the consumer endpoint is shut down; the `IN` bit is never set.
The embedding of poll is a pure function of the state, reflecting that the
source only reads (never writes) under the briefly-held buffer lock. -/
theorem C6_producer_poll_spec {I : Type} (s : ChannelState I) :
    ((Producer.poll s).isOut = true ↔ ¬ rb_is_full s = true) ∧
    (Producer.poll s).isHup = s.is_producer_shutdown ∧
    (Producer.poll s).isRdhup = s.is_consumer_shutdown ∧
    (Producer.poll s).isIn = false := by
  simp only [Producer.poll, IoEvents.empty, IoEvents.union, IoEvents.OUT,
    IoEvents.HUP, IoEvents.RDHUP]
  split_ifs <;> simp_all

/-- C7: `shutdown()` is idempotent on both endpoints: a second call finds
the flag already set, leaves the Shutdown State (and everything else)
unchanged, raises no error, and performs exactly the same broadcast of its
hang-up event followed by the wake-all of its parked waiters as the first
call did. -/
theorem C7_shutdown_idempotent {I : Type} (s : ChannelState I) :
    Producer.shutdown (Producer.shutdown s).1 = Producer.shutdown s ∧
    (Producer.shutdown (Producer.shutdown s).1).2
        = [.broadcast IoEvents.HUP, .wakeAll] ∧
    Consumer.shutdown (Consumer.shutdown s).1 = Consumer.shutdown s ∧
    (Consumer.shutdown (Consumer.shutdown s).1).2
        = [.broadcast IoEvents.RDHUP, .wakeAll] := by
  simp [Producer.shutdown, Consumer.shutdown]

/-- The operations of the channel, used to state state-evolution
invariants uniformly. -/
inductive ChannelOp (I : Type)
  | push (item : I)
  | pushSlice (items : List I)
  | pop
  | popSlice (n : Nat)
  | producerPoll
  | consumerPoll
  | producerShutdownOp
  | consumerShutdownOp
  | producerSetNonblocking (b : Bool)
  | consumerSetNonblocking (b : Bool)

/-- The state reached after one attempt of each operation (`poll` reads the
state without changing it). -/
def ChannelOp.step {I : Type} : ChannelOp I → ChannelState I → ChannelState I
  | .push item, s => (Producer.push s item).2.1
  | .pushSlice items, s => (Producer.push_slice s items).2.1
  | .pop, s => (Consumer.pop s).2.1
  | .popSlice n, s => (Consumer.pop_slice s n).2.1
  | .producerPoll, s => s
  | .consumerPoll, s => s
  | .producerShutdownOp, s => (Producer.shutdown s).1
  | .consumerShutdownOp, s => (Consumer.shutdown s).1
  | .producerSetNonblocking b, s => (Producer.set_nonblocking s b).1
  | .consumerSetNonblocking b, s => (Consumer.set_nonblocking s b).1

/-- C8: the shutdown flags are monotonic across every operation of the
channel (`false ≤ true` in the Bool order): an operation never clears
`is_producer_shutdown` or `is_consumer_shutdown`; the only writes to
either flag store `true`. -/
theorem C8_shutdown_monotonic {I : Type} (op : ChannelOp I) (s : ChannelState I) :
    s.is_producer_shutdown ≤ (ChannelOp.step op s).is_producer_shutdown ∧
    s.is_consumer_shutdown ≤ (ChannelOp.step op s).is_consumer_shutdown := by
  cases op <;>
    simp only [ChannelOp.step, Producer.push, Producer.push_slice, Consumer.pop,
      Consumer.pop_slice, Producer.shutdown, Consumer.shutdown,
      Producer.set_nonblocking, Consumer.set_nonblocking] <;>
    (repeat' split) <;> simp [Bool.le_true]

/-- C9: error atomicity.  Whenever one attempt of `push`, `push_slice`,
`pop` or `pop_slice` returns an error (`EPIPE` or `EAGAIN`), the whole
channel state — buffer contents, shutdown flags, non-blocking flags — is
exactly what it was before the call, and no event is broadcast. -/
theorem C9_error_atomicity {I : Type} (s : ChannelState I) (item : I)
    (items : List I) (n : Nat) (e : Errno) :
    ((Producer.push s item).1 = .err e →
        Producer.push s item = (.err e, s, [])) ∧
    ((Producer.push_slice s items).1 = .err e →
        Producer.push_slice s items = (.err e, s, [])) ∧
    ((Consumer.pop s).1 = .err e →
        Consumer.pop s = (.err e, s, [])) ∧
    ((Consumer.pop_slice s n).1 = .err e →
        Consumer.pop_slice s n = (.err e, s, [])) := by
  refine ⟨?_, ?_, ?_, ?_⟩ <;>
    (simp only [Producer.push, Producer.push_slice, Consumer.pop,
        Consumer.pop_slice];
      (repeat' split) <;> simp_all)

/-- A concrete channel state whose consumer endpoint is shut down, used to
exercise the error paths at a concrete input. -/
def consumerClosed : ChannelState Nat :=
  { capacity := 2, buffer := [], is_producer_shutdown := false,
    is_consumer_shutdown := true, producer_nonblocking := false,
    consumer_nonblocking := false }

/-- C9 witness: on a channel whose consumer is shut down, all four
operations fail with `EPIPE` and return the state unchanged with no
events. -/
theorem C9_error_atomicity_witness :
    Producer.push consumerClosed 9 = (.err .EPIPE, consumerClosed, []) ∧
    Producer.push_slice consumerClosed [1, 2] = (.err .EPIPE, consumerClosed, []) ∧
    Consumer.pop consumerClosed = (.err .EPIPE, consumerClosed, []) ∧
    Consumer.pop_slice consumerClosed 1 = (.err .EPIPE, consumerClosed, []) := by
  have h := C9_error_atomicity consumerClosed 9 [1, 2] 1 .EPIPE
  exact ⟨h.1 (by decide), h.2.1 (by decide), h.2.2.1 (by decide),
    h.2.2.2 (by decide)⟩

/-- Shared state of the two-thread scenario of one consumer blocked in
`pop()` on an empty open channel and one producer calling `push(item)`:
the ring buffer plus the consumer's `Waiter` token (`notified` is true
when the waiter has been woken since its last reset). -/
structure PopSys (I : Type) where
  buffer : List I
  notified : Bool
deriving DecidableEq, Repr

/-- Program counter of the consumer thread executing `Consumer::pop` via
`waiter_loop!`: about to run the fast-path body, about to
`reset_and_enqueue`, about to re-run the body inside the loop, about to
`waiter.wait`, or returned with an item. -/
inductive PopPC (I : Type)
  | fastAttempt
  | enqueue
  | attempt
  | wait
  | done (item : I)
deriving DecidableEq, Repr

/-- One atomic step of the consumer thread.  The channel is open and the
consumer endpoint is blocking, so the `pop` body (run under the buffer
lock) either returns the front item or falls through toward parking.
`reset_and_enqueue` clears any stale wakeup before re-registering — a
notification delivered before this point is deliberately discarded, which
is safe only because the body runs again after it.  `waiter.wait` returns
when the waiter has been woken since its reset and blocks (a self-loop)
otherwise; on return the loop re-enters at `reset_and_enqueue`. -/
def popStep {I : Type} : PopPC I × PopSys I → PopPC I × PopSys I
  | (.fastAttempt, s) =>
    match s.buffer with
    | item :: rest => (.done item, { s with buffer := rest })
    | [] => (.enqueue, s)
  | (.enqueue, s) => (.attempt, { s with notified := false })
  | (.attempt, s) =>
    match s.buffer with
    | item :: rest => (.done item, { s with buffer := rest })
    | [] => (.wait, s)
  | (.wait, s) => if s.notified then (.enqueue, s) else (.wait, s)
  | (.done item, s) => (.done item, s)

/-- The producer thread's single atomic action, `Producer::push(item)` on
the non-full open channel: append the item at the back, then broadcast
`IN`, which — through the cross-registration made by `Channel::new` —
reaches the consumer's `WaiterQueueObserver` and wakes its waiter.  (If
the consumer has not enqueued yet, the real wakeup hits an empty queue;
the model may set `notified` anyway, harmlessly, because a later
`reset_and_enqueue` clears it before it could be consumed.) -/
def pushWake {I : Type} (item : I) (s : PopSys I) : PopSys I :=
  { buffer := s.buffer ++ [item], notified := true }

/-- Run the consumer thread for `fuel` steps. -/
def runConsumer {I : Type} : Nat → PopPC I × PopSys I → PopPC I × PopSys I
  | 0, c => c
  | n + 1, c => runConsumer n (popStep c)

/-- Start of the scenario: empty open channel, consumer about to enter
`pop()`, waiter not yet woken. -/
def popInit (I : Type) : PopPC I × PopSys I :=
  (.fastAttempt, { buffer := [], notified := false })

/-- The interleaving in which the producer's `push` runs after exactly `k`
consumer steps (every interleaving of the two threads has this shape,
because the producer performs a single atomic action and a blocked
consumer's steps are no-ops), followed by three more consumer steps. -/
def popPushExec {I : Type} (item : I) (k : Nat) : PopPC I × PopSys I :=
  let c := runConsumer k (popInit I)
  runConsumer 3 (c.1, pushWake item c.2)

/-- A consumer parked on an un-notified waiter stays parked: blocking
consumes no steps and changes nothing. -/
theorem runConsumer_wait_stuck {I : Type} (m : Nat) :
    runConsumer m ((.wait, { buffer := [], notified := false }) : PopPC I × PopSys I)
      = (.wait, { buffer := [], notified := false }) := by
  induction m with
  | zero => rfl
  | succ n ih => simpa [runConsumer, popStep] using ih

/-- C10: no lost wakeup.  For every interleaving (every point `k` at which
the producer's `push(item)` lands among the consumer's steps), the
consumer blocked in `pop()` on the empty open channel is woken if parked,
re-checks the buffer, and returns the pushed item, emptying the buffer:
the re-check after `reset_and_enqueue` observes any item that arrived
between enqueueing and parking, so no interleaving blocks forever. -/
theorem C10_no_lost_wakeup {I : Type} (item : I) (k : Nat) :
    (popPushExec item k).1 = PopPC.done item ∧
    (popPushExec item k).2.buffer = [] := by
  match k with
  | 0 => exact ⟨rfl, rfl⟩
  | 1 => exact ⟨rfl, rfl⟩
  | 2 => exact ⟨rfl, rfl⟩
  | m + 3 =>
    have hstuck : runConsumer (m + 3) (popInit I)
        = (.wait, { buffer := [], notified := false }) := by
      have h3 : runConsumer (m + 3) (popInit I)
          = runConsumer m ((.wait, { buffer := [], notified := false })
              : PopPC I × PopSys I) := by
        show runConsumer (m + 1 + 1 + 1) (popInit I) = _
        simp [runConsumer, popStep, popInit]
      rw [h3, runConsumer_wait_stuck]
    unfold popPushExec
    rw [hstuck]
    exact ⟨rfl, rfl⟩
